import Mathlib

/-! VoiceRecogBasic: command display and poll loop

A shallow embedding of `src/main.cpp`.  The sketch keeps one mutable counter,
`screen_line_ctr`, and talks to three collaborators (the TFT display, the
serial status channel and the voice module).  Every call to a collaborator is
recorded, in program order, as an `Event` appended to the state's `trace`.
-/

namespace VoiceRecogBasic

/-- Colour constant `ILI9341_BLACK` (0x0000) of the display library. -/
def ILI9341_BLACK : Nat := 0x0000

/-- Colour constant `ILI9341_WHITE` (0xFFFF) of the display library. -/
def ILI9341_WHITE : Nat := 0xFFFF

/-- Macro `SCREEN_ROTATION` (main.cpp:22). -/
def SCREEN_ROTATION : Nat := 1

/-- Global `int screen_max_lines = 13;` (main.cpp:25); it is never assigned. -/
def screen_max_lines : Int := 13

/-- One call to a collaborator, as written in the source. -/
inductive Event where
  /-- Call `tft.fillScreen(color)`. -/
  | fillScreen (color : Nat)
  /-- Call `tft.setCursor(x, y)`. -/
  | setCursor (x y : Nat)
  /-- Call `tft.setTextSize(size)`. -/
  | setTextSize (size : Nat)
  /-- Call `tft.setTextColor(color)`. -/
  | setTextColor (color : Nat)
  /-- Call `tft.print(str)` with a string argument. -/
  | tftPrint (str : String)
  /-- Call `tft.print(n)` with a `uint8_t` argument, printed in decimal. -/
  | tftPrintNum (n : Nat)
  /-- Call `tft.println(str)`. -/
  | tftPrintln (str : String)
  /-- Call `tft.begin()`. -/
  | tftBegin
  /-- Call `tft.setRotation(r)`. -/
  | tftSetRotation (r : Nat)
  /-- Call `ts.begin()`. -/
  | tsBegin
  /-- Call `ts.setRotation(r)`. -/
  | tsSetRotation (r : Nat)
  /-- Call `delay(ms)`. -/
  | delay (ms : Nat)
  /-- Call `Serial.begin(baud)`. -/
  | serialBegin (baud : Nat)
  /-- Call `Serial.print(str)`. -/
  | serialPrint (str : String)
  /-- Call `Serial.println(str)`. -/
  | serialPrintln (str : String)
  /-- Call `Serial.println(n)` with a `uint8_t` argument, printed in decimal. -/
  | serialPrintlnNum (n : Nat)
  /-- Call `DF2301Q.begin()`, with the value it returned. -/
  | df2301qBegin (ok : Bool)
  /-- Call `DF2301Q.playByCMDID(id)`. -/
  | playByCMDID (id : Nat)
  deriving DecidableEq

/-- Program state: the global `screen_line_ctr` (main.cpp:24) and the record of
all collaborator calls made so far, oldest first. -/
structure State where
  /-- Global `int screen_line_ctr`. -/
  screen_line_ctr : Int
  /-- Collaborator calls in program order. -/
  trace : List Event
  deriving DecidableEq

/-- Append one collaborator call to the record. -/
def State.emit (s : State) (e : Event) : State :=
  { s with trace := s.trace ++ [e] }

/-- State before `setup` runs: `screen_line_ctr = 0`, nothing called yet. -/
def initState : State := { screen_line_ctr := 0, trace := [] }

/-- Function `clearScreen` (main.cpp:67-71). -/
def clearScreen (s : State) : State :=
  let s := s.emit (Event.fillScreen ILI9341_BLACK)
  let s := s.emit (Event.setCursor 0 0)
  { s with screen_line_ctr := 0 }

/-- Body shared by the ten branches `case 52` .. `case 61` (main.cpp:143-202):
`clearScreen(); strcpy(Msg, label); tft.setTextSize(15); tft.print(glyph);
delay(2000); clearScreen(); tft.setTextSize(2); break;`.  Returns the new
content of `Msg` and the state. -/
def displayNumberBranch (label glyph : String) (s : State) : String × State :=
  let s := clearScreen s
  let Msg := label
  let s := s.emit (Event.setTextSize 15)
  let s := s.emit (Event.tftPrint glyph)
  let s := s.emit (Event.delay 2000)
  let s := clearScreen s
  let s := s.emit (Event.setTextSize 2)
  (Msg, s)

/-- The `switch(CMDID)` statement of `DisplayCommand` (main.cpp:75-218), run
with `Msg` initialised to `" "`.  Returns the content of `Msg` after the
switch and the state. -/
def DisplayCommand_switch (CMDID : Nat) (s : State) : String × State :=
  let Msg := " "
  match CMDID with
  | 1 => (" Custom Wake Word", s)
  | 2 => (" Waiting for Command", s)
  | 22 => ("Go Forward", s)
  | 23 => ("Retreat", s)
  | 24 => ("Park The Car", s)
  | 25 => ("Turn Left 90-deg", s)
  | 26 => ("Turn Left 45-deg", s)
  | 27 => ("Turn Left 30-deg", s)
  | 28 => ("Turn right 90-deg", s)
  | 29 => ("Turn right 45-deg", s)
  | 30 => ("Turn right 30-deg", s)
  | 31 => ("Shift down a gear", s)
  | 32 => ("Line Tracking Mode", s)
  | 33 => ("Light Tracking Mode", s)
  | 34 => ("Bluetooth Mode", s)
  | 35 => ("Obstacle Avoidance", s)
  | 36 => ("Face Recognition", s)
  | 37 => ("Object Tracking", s)
  | 38 => ("Object Recognition", s)
  | 39 => ("Line Tracking", s)
  | 40 => ("Color Recognition", s)
  | 41 => ("Tag Recognition", s)
  | 42 => ("Object Sorting", s)
  | 43 => ("QR Code Recognition", s)
  | 44 => ("General Settings", s)
  | 45 => ("Clear Screen", clearScreen s)
  | 46 => ("Learn once", s)
  | 47 => ("Forget", s)
  | 48 => ("Load Model", s)
  | 49 => ("Save Model", s)
  | 50 => ("Take Photo & Save", s)
  | 51 => ("Save & Return", s)
  | 52 => displayNumberBranch "Display Number Zero" "0" s
  | 53 => displayNumberBranch "Display Number One" "1" s
  | 54 => displayNumberBranch "Display Number Two" "2" s
  | 55 => displayNumberBranch "Display Number Three" "3" s
  | 56 => displayNumberBranch "Display Number Four" "4" s
  | 57 => displayNumberBranch "Display Number Five" "5" s
  | 58 => displayNumberBranch "Display Number Six" "6" s
  | 59 => displayNumberBranch "Display Number Seven" "7" s
  | 60 => displayNumberBranch "Display Number Eight" "8" s
  | 61 => displayNumberBranch "Display Number Nine" "9" s
  | 92 => ("Play Music", s)
  | 93 => ("Stop Playing", s)
  | 94 => ("The Last Track", s)
  | 95 => ("The Next Track", s)
  | 96 => ("Repeat This Track", s)
  | 97 => ("Volume Up", s)
  | 98 => ("Volume Down", s)
  | _ => (Msg, s)

/-- The statements of `DisplayCommand` after the switch (main.cpp:220-227):
clear when the counter is past the last line, print the log line, count it.
At the increment the counter is at most `screen_max_lines`, so the `int`
addition cannot overflow. -/
def DisplayCommand_tail (CMDID : Nat) (Msg : String) (s : State) : State :=
  let s := if s.screen_line_ctr > screen_max_lines then clearScreen s else s
  let s := s.emit (Event.tftPrintNum CMDID)
  let s := s.emit (Event.tftPrint ": ")
  let s := s.emit (Event.tftPrintln Msg)
  { s with screen_line_ctr := s.screen_line_ctr + 1 }

/-- Function `DisplayCommand` (main.cpp:73-228); `CMDID` is a `uint8_t`, so
callers pass a value below 256. -/
def DisplayCommand (CMDID : Nat) (s : State) : State :=
  let r := DisplayCommand_switch CMDID s
  DisplayCommand_tail CMDID r.1 r.2

/-- The retry loop of `setup` (main.cpp:253-256) when `DF2301Q.begin()` fails
`failures` times before it succeeds. -/
def setup_beginLoop : Nat → State → State
  | 0, s => s.emit (Event.df2301qBegin true)
  | n + 1, s =>
    let s := s.emit (Event.df2301qBegin false)
    let s := s.emit
      (Event.serialPrintln "Communication with device failed, please check connection")
    let s := s.emit (Event.delay 3000)
    setup_beginLoop n s

/-- Function `setup` (main.cpp:231-284) on an ESP32 build, where
`DF2301Q.begin()` fails `failures` times before it succeeds. -/
def setup (failures : Nat) (s : State) : State :=
  let s := s.emit (Event.serialBegin 115200)
  let s := s.emit Event.tsBegin
  let s := s.emit (Event.tsSetRotation SCREEN_ROTATION)
  let s := s.emit Event.tftBegin
  let s := s.emit (Event.tftSetRotation SCREEN_ROTATION)
  let s := s.emit (Event.fillScreen ILI9341_BLACK)
  let s := s.emit (Event.setTextColor ILI9341_WHITE)
  let s := s.emit (Event.setTextSize 2)
  let s := s.emit (Event.tftPrintln "DFRobot Voice Activation")
  let s := s.emit (Event.tftPrintln " ")
  let s := { s with screen_line_ctr := 2 }
  let s := setup_beginLoop failures s
  let s := s.emit (Event.serialPrintln "Begin ok!")
  s.emit (Event.playByCMDID 23)

/-- One iteration of `loop` (main.cpp:286-303); `CMDID` is the value that
`DF2301Q.getCMDID()` returned in this iteration. -/
def loop (CMDID : Nat) (s : State) : State :=
  let s :=
    if 0 ≠ CMDID then
      let s := s.emit (Event.serialPrint "CMDID = ")
      let s := s.emit (Event.serialPrintlnNum CMDID)
      DisplayCommand CMDID s
    else
      s.emit (Event.serialPrintln "waiting....")
  s.emit (Event.delay 1000)

/-- Whether an event is a call on the display `tft`. -/
def Event.isDisplay : Event → Bool
  | Event.fillScreen _ => true
  | Event.setCursor _ _ => true
  | Event.setTextSize _ => true
  | Event.setTextColor _ => true
  | Event.tftPrint _ => true
  | Event.tftPrintNum _ => true
  | Event.tftPrintln _ => true
  | Event.tftBegin => true
  | Event.tftSetRotation _ => true
  | _ => false

/-- Whether an event is a call on the status channel `Serial`. -/
def Event.isSerial : Event → Bool
  | Event.serialBegin _ => true
  | Event.serialPrint _ => true
  | Event.serialPrintln _ => true
  | Event.serialPrintlnNum _ => true
  | _ => false

/-- The display-operation trace: the calls on `tft`, in order. -/
def displayTrace (s : State) : List Event := s.trace.filter Event.isDisplay

/-- The status-channel trace: the calls on `Serial`, in order. -/
def serialTrace (s : State) : List Event := s.trace.filter Event.isSerial

/-- Characters a print call sends, line terminator left out; numbers are
printed in decimal, the default base of the Arduino `Print` class. -/
def Event.text : Event → String
  | Event.tftPrint str => str
  | Event.tftPrintNum n => toString n
  | Event.tftPrintln str => str
  | Event.serialPrint str => str
  | Event.serialPrintln str => str
  | Event.serialPrintlnNum n => toString n
  | _ => ""

/-- Text of a run of print calls, joined in order. -/
def lineText (es : List Event) : String := String.join (es.map Event.text)

/-- The two display calls made by `clearScreen`. -/
def clearEvents : List Event := [Event.fillScreen ILI9341_BLACK, Event.setCursor 0 0]

/-- The three display calls that print the log line of `CMDID` with label `Msg`. -/
def logLineEvents (CMDID : Nat) (Msg : String) : List Event :=
  [Event.tftPrintNum CMDID, Event.tftPrint ": ", Event.tftPrintln Msg]

/-- IDs whose switch branch only copies a label: 1, 2, 22..44, 46..51, 92..98. -/
def isPlainLabelID (id : Nat) : Bool :=
  id == 1 || id == 2 || (22 ≤ id && id ≤ 44) || (46 ≤ id && id ≤ 51) || (92 ≤ id && id ≤ 98)

/-- IDs that have a `case` in the switch: 1, 2, 22..61, 92..98. -/
def isMappedID (id : Nat) : Bool :=
  id == 1 || id == 2 || (22 ≤ id && id ≤ 61) || (92 ≤ id && id ≤ 98)

/-- States reachable from the state `setup` leaves by `DisplayCommand` calls
with IDs in 1..255. -/
inductive Reachable : State → Prop where
  | start (failures : Nat) : Reachable (setup failures initState)
  | step (s : State) (CMDID : Nat) (hs : Reachable s) (hlo : 1 ≤ CMDID) (hhi : CMDID ≤ 255) :
      Reachable (DisplayCommand CMDID s)

/-- Whether an event is a `tft.println` call, the call that ends a log line. -/
def Event.isPrintln : Event → Bool
  | Event.tftPrintln _ => true
  | _ => false

/-- Number of log lines put on the display so far. -/
def linesPrinted (s : State) : Nat := s.trace.countP Event.isPrintln

/-- The display and timing calls of a digit branch that shows digit `d`:
clear, text size 15, the glyph, a 2000 ms hold, clear again, text size 2. -/
def showDigitEvents (d : Nat) : List Event :=
  clearEvents ++ [Event.setTextSize 15, Event.tftPrint (toString d), Event.delay 2000]
    ++ clearEvents ++ [Event.setTextSize 2]

/-- The state after `setup` (no failed `begin`) and twelve `DisplayCommand(22)`
calls; its counter is `screen_max_lines + 1`. -/
def overflowState : State := (DisplayCommand 22)^[12] (setup 0 initState)

/-- Effect of one call on the text size in force: `tft.setTextSize(n)` sets
it to `n`, every other call leaves it as it is. -/
def textSizeStep (cur : Option Nat) (e : Event) : Option Nat :=
  match e with
  | Event.setTextSize n => some n
  | _ => cur

/-- Text size in force after a record of calls: the argument of the last
`tft.setTextSize` call, or `none` when there has been none. -/
def textSizeAfter (es : List Event) : Option Nat := es.foldl textSizeStep none

/-- Run `DisplayCommand` on each ID of a list, in order. -/
def runCommands (ids : List Nat) (s : State) : State :=
  ids.foldl (fun st id => DisplayCommand id st) s

/-! ## Structure of the switch -/

/-- Every branch of the switch is of one of three shapes: it leaves the state
alone, it is the `case 45` clear, or it is one of the digit branches. -/
theorem switch_shape (CMDID : Nat) :
    ((CMDID ≠ 45 ∧ ¬ (52 ≤ CMDID ∧ CMDID ≤ 61)) ∧ ∀ s, (DisplayCommand_switch CMDID s).2 = s)
    ∨ (CMDID = 45 ∧ ∀ s, DisplayCommand_switch CMDID s = ("Clear Screen", clearScreen s))
    ∨ ((52 ≤ CMDID ∧ CMDID ≤ 61) ∧ ∃ label glyph,
        ∀ s, DisplayCommand_switch CMDID s = displayNumberBranch label glyph s) := by
  by_cases hle : CMDID ≤ 98
  · interval_cases CMDID <;> first
      | exact Or.inl ⟨by decide, fun _ => rfl⟩
      | exact Or.inr (Or.inl ⟨rfl, fun _ => rfl⟩)
      | exact Or.inr (Or.inr ⟨by decide, _, _, fun _ => rfl⟩)
  · refine Or.inl ⟨by omega, fun s => ?_⟩
    unfold DisplayCommand_switch
    split <;> first
      | omega
      | rfl

/-- Above the last `case` label every ID takes the default path. -/
theorem switch_unmapped (CMDID : Nat) (s : State) (h : isMappedID CMDID = false) :
    DisplayCommand_switch CMDID s = (" ", s) := by
  by_cases hle : CMDID ≤ 98
  · interval_cases CMDID <;> first
      | rfl
      | exact absurd h (by decide)
  · unfold DisplayCommand_switch
    split <;> first
      | omega
      | rfl

/-- The label the switch leaves in `Msg` does not depend on the state. -/
theorem switch_label_indep (CMDID : Nat) (s t : State) :
    (DisplayCommand_switch CMDID s).1 = (DisplayCommand_switch CMDID t).1 := by
  by_cases hle : CMDID ≤ 98
  · interval_cases CMDID <;> simp only [DisplayCommand_switch, displayNumberBranch]
  · have hm : isMappedID CMDID = false := by
      simp only [isMappedID, Bool.or_eq_false_iff, Bool.and_eq_false_iff, beq_eq_false_iff_ne,
        decide_eq_false_iff_not]
      omega
    rw [switch_unmapped CMDID s hm, switch_unmapped CMDID t hm]

/-- Plain-label IDs are at most 98. -/
theorem plain_le {CMDID : Nat} (h : isPlainLabelID CMDID = true) : CMDID ≤ 98 := by
  simp only [isPlainLabelID, Bool.or_eq_true, Bool.and_eq_true, decide_eq_true_eq,
    beq_iff_eq] at h
  omega

/-! ## Basic facts about the state operations -/

@[simp] theorem emit_ctr (s : State) (e : Event) :
    (s.emit e).screen_line_ctr = s.screen_line_ctr := rfl

@[simp] theorem emit_trace (s : State) (e : Event) :
    (s.emit e).trace = s.trace ++ [e] := rfl

@[simp] theorem clearScreen_ctr (s : State) : (clearScreen s).screen_line_ctr = 0 := rfl

@[simp] theorem clearScreen_trace (s : State) :
    (clearScreen s).trace = s.trace ++ clearEvents := by
  simp [clearScreen, clearEvents]

@[simp] theorem displayNumberBranch_fst (label glyph : String) (s : State) :
    (displayNumberBranch label glyph s).1 = label := rfl

@[simp] theorem displayNumberBranch_ctr (label glyph : String) (s : State) :
    (displayNumberBranch label glyph s).2.screen_line_ctr = 0 := rfl

theorem displayNumberBranch_trace (label glyph : String) (s : State) :
    (displayNumberBranch label glyph s).2.trace
      = s.trace ++ (clearEvents ++ [Event.setTextSize 15, Event.tftPrint glyph,
          Event.delay 2000] ++ clearEvents ++ [Event.setTextSize 2]) := by
  simp [displayNumberBranch]

theorem tail_ctr (CMDID : Nat) (Msg : String) (s : State) :
    (DisplayCommand_tail CMDID Msg s).screen_line_ctr
      = (if s.screen_line_ctr > screen_max_lines then 0 else s.screen_line_ctr) + 1 := by
  unfold DisplayCommand_tail
  split <;> simp

theorem tail_trace (CMDID : Nat) (Msg : String) (s : State) :
    (DisplayCommand_tail CMDID Msg s).trace
      = s.trace ++ (if s.screen_line_ctr > screen_max_lines then clearEvents else [])
          ++ logLineEvents CMDID Msg := by
  unfold DisplayCommand_tail
  split <;> simp [logLineEvents]

/-- After its own clear a branch leaves the counter at 0, so the tail does not
clear again and the call ends with the counter at 1. -/
theorem tail_after_clear (CMDID : Nat) (Msg : String) (s : State)
    (h : s.screen_line_ctr = 0) :
    (DisplayCommand_tail CMDID Msg s).screen_line_ctr = 1
    ∧ (DisplayCommand_tail CMDID Msg s).trace = s.trace ++ logLineEvents CMDID Msg := by
  rw [tail_ctr, tail_trace, h]
  simp [screen_max_lines]

/-! ## The dispatch table -/

/-- Claim C1: for every ID in {1, 2, 22..44, 46..51, 92..98} the switch of
`DisplayCommand` assigns a label to `Msg`: after the switch `Msg` is no longer
its initial content `" "`, it is not empty and it holds a character other than
a space.  The switch does nothing else: the state after it is the state before
it (no clear, no digit, no call). -/
theorem C1_plain_label_no_effect (CMDID : Nat) (s : State)
    (h : isPlainLabelID CMDID = true) :
    (DisplayCommand_switch CMDID s).1 ≠ ""
    ∧ 0 < (DisplayCommand_switch CMDID s).1.length
    ∧ (DisplayCommand_switch CMDID s).1 ≠ " "
    ∧ (DisplayCommand_switch CMDID s).1.data.any (fun c => c != ' ') = true
    ∧ (DisplayCommand_switch CMDID s).2 = s := by
  have hle : CMDID ≤ 98 := plain_le h
  refine ⟨?_, ?_, ?_, ?_, ?_⟩
  · rw [switch_label_indep CMDID s initState]
    interval_cases CMDID <;> first
      | exact absurd h (by decide)
      | decide
  · rw [switch_label_indep CMDID s initState]
    interval_cases CMDID <;> first
      | exact absurd h (by decide)
      | decide
  · rw [switch_label_indep CMDID s initState]
    interval_cases CMDID <;> first
      | exact absurd h (by decide)
      | decide
  · rw [switch_label_indep CMDID s initState]
    interval_cases CMDID <;> first
      | exact absurd h (by decide)
      | decide
  · interval_cases CMDID <;> first
      | exact absurd h (by decide)
      | rfl

/-- Witness for C1 at ID 22 ("Go Forward"). -/
theorem C1_plain_label_no_effect_witness :
    isPlainLabelID 22 = true
    ∧ (DisplayCommand_switch 22 initState).1 ≠ ""
    ∧ 0 < (DisplayCommand_switch 22 initState).1.length
    ∧ (DisplayCommand_switch 22 initState).1 ≠ " "
    ∧ (DisplayCommand_switch 22 initState).1.data.any (fun c => c != ' ') = true
    ∧ (DisplayCommand_switch 22 initState).2 = initState :=
  ⟨by decide, C1_plain_label_no_effect 22 initState (by decide)⟩

/-- Claim C2: for every ID in 52..61 the switch of `DisplayCommand` performs
the show-digit sequence for digit `CMDID - 52` (the only glyph printed at text
size 15 is that decimal digit), and the digit is at most 9. -/
theorem C2_show_digit (CMDID : Nat) (s : State) (hlo : 52 ≤ CMDID) (hhi : CMDID ≤ 61) :
    (DisplayCommand_switch CMDID s).2.trace = s.trace ++ showDigitEvents (CMDID - 52)
    ∧ 0 ≤ CMDID - 52 ∧ CMDID - 52 ≤ 9 := by
  refine ⟨?_, by omega, by omega⟩
  interval_cases CMDID <;>
    · show (displayNumberBranch _ _ s).2.trace = _
      rw [displayNumberBranch_trace]
      rfl

/-- Witness for C2 at ID 57 (digit 5). -/
theorem C2_show_digit_witness :
    (52 ≤ 57 ∧ 57 ≤ 61)
    ∧ (DisplayCommand_switch 57 initState).2.trace = initState.trace ++ showDigitEvents (57 - 52)
    ∧ 0 ≤ 57 - 52 ∧ 57 - 52 ≤ 9 :=
  ⟨by decide, C2_show_digit 57 initState (by decide) (by decide)⟩

/-- Claim C3, as stated, fails at ID 200: the label left in `Msg` is not of
length 0. -/
theorem C3_unmapped_label_not_empty :
    ¬ ((DisplayCommand_switch 200 initState).1.length = 0
        ∧ (DisplayCommand_switch 200 initState).2 = initState) := by
  decide

/-- Claim C3, amended: for every ID outside {1, 2, 22..61, 92..98} (so for
every such ID in 0..255) the switch leaves `Msg` at its initial value `" "`, a
single space of length 1, and does nothing else. -/
theorem C3_unmapped_label_single_space (CMDID : Nat) (s : State)
    (h : isMappedID CMDID = false) :
    (DisplayCommand_switch CMDID s).1 = " "
    ∧ (DisplayCommand_switch CMDID s).1.length = 1
    ∧ (DisplayCommand_switch CMDID s).2 = s := by
  rw [switch_unmapped CMDID s h]
  exact ⟨rfl, rfl, rfl⟩

/-- Witness for the amended C3 at ID 200. -/
theorem C3_unmapped_label_single_space_witness :
    isMappedID 200 = false
    ∧ (DisplayCommand_switch 200 initState).1 = " "
    ∧ (DisplayCommand_switch 200 initState).1.length = 1
    ∧ (DisplayCommand_switch 200 initState).2 = initState :=
  ⟨by decide, C3_unmapped_label_single_space 200 initState (by decide)⟩

/-! ## Commands with an effect -/

/-- The number of printed log lines after appending events to the record. -/
theorem linesPrinted_append (s t : State) (es : List Event) (h : t.trace = s.trace ++ es) :
    linesPrinted t = linesPrinted s + es.countP Event.isPrintln := by
  simp [linesPrinted, h, List.countP_append]

/-- Claim C4, as stated, fails from a state with `screen_line_ctr = 5`: after
`DisplayCommand(45)` the counter is not 0 and a log line has been printed. -/
theorem C4_clear_command_counter_not_zero :
    ¬ ((DisplayCommand 45 { screen_line_ctr := 5, trace := [] }).screen_line_ctr = 0
        ∧ linesPrinted (DisplayCommand 45 { screen_line_ctr := 5, trace := [] })
            = linesPrinted { screen_line_ctr := 5, trace := [] }) := by
  decide

/-- Claim C4, amended: for every prior state, `DisplayCommand(45)` clears the
screen (counter to 0), then prints exactly one log line, "45: Clear Screen",
and returns with `screen_line_ctr` exactly 1. -/
theorem C4_clear_command_then_log_line (s : State) :
    (DisplayCommand 45 s).trace = s.trace ++ clearEvents ++ logLineEvents 45 "Clear Screen"
    ∧ linesPrinted (DisplayCommand 45 s) = linesPrinted s + 1
    ∧ (DisplayCommand 45 s).screen_line_ctr = 1 := by
  have hdef : DisplayCommand 45 s = DisplayCommand_tail 45 "Clear Screen" (clearScreen s) := rfl
  have htail := tail_after_clear 45 "Clear Screen" (clearScreen s) (clearScreen_ctr s)
  have htr : (DisplayCommand 45 s).trace
      = s.trace ++ (clearEvents ++ logLineEvents 45 "Clear Screen") := by
    rw [hdef, htail.2, clearScreen_trace, List.append_assoc]
  refine ⟨by rw [htr, List.append_assoc], ?_, by rw [hdef]; exact htail.1⟩
  rw [linesPrinted_append s _ _ htr]
  rfl

/-- Claim C5, as stated, fails from a state with `screen_line_ctr = 5`:
`DisplayCommand(52)` does not stop after the digit sequence with the counter
and the number of log lines unchanged. -/
theorem C5_digit_command_changes_counter :
    ¬ ((DisplayCommand 52 { screen_line_ctr := 5, trace := [] }).trace = showDigitEvents 0
        ∧ linesPrinted (DisplayCommand 52 { screen_line_ctr := 5, trace := [] })
            = linesPrinted { screen_line_ctr := 5, trace := [] }
        ∧ (DisplayCommand 52 { screen_line_ctr := 5, trace := [] }).screen_line_ctr = 5) := by
  decide

/-- Claim C5, amended: for every prior state, `DisplayCommand(52)` performs the
digit sequence for 0 (clear, size 15, "0", 2000 ms hold, clear, size 2), then
prints exactly one log line, "52: Display Number Zero", on the cleared screen
and returns with `screen_line_ctr` exactly 1. -/
theorem C5_digit_command_then_log_line (s : State) :
    (DisplayCommand 52 s).trace
      = s.trace ++ showDigitEvents 0 ++ logLineEvents 52 "Display Number Zero"
    ∧ linesPrinted (DisplayCommand 52 s) = linesPrinted s + 1
    ∧ (DisplayCommand 52 s).screen_line_ctr = 1 := by
  have hdef : DisplayCommand 52 s
      = DisplayCommand_tail 52 "Display Number Zero"
          (displayNumberBranch "Display Number Zero" "0" s).2 := rfl
  have htail := tail_after_clear 52 "Display Number Zero"
    (displayNumberBranch "Display Number Zero" "0" s).2 (displayNumberBranch_ctr _ _ s)
  have htr : (DisplayCommand 52 s).trace
      = s.trace ++ (showDigitEvents 0 ++ logLineEvents 52 "Display Number Zero") := by
    rw [hdef, htail.2, displayNumberBranch_trace, List.append_assoc]
    rfl
  refine ⟨by rw [htr, List.append_assoc], ?_, by rw [hdef]; exact htail.1⟩
  rw [linesPrinted_append s _ _ htr]
  rfl

/-! ## The log controller -/

/-- The tail of `DisplayCommand`, written out as a state. -/
theorem tail_eq (CMDID : Nat) (Msg : String) (s : State) :
    DisplayCommand_tail CMDID Msg s
      = { screen_line_ctr :=
            (if s.screen_line_ctr > screen_max_lines then 0 else s.screen_line_ctr) + 1
          trace := s.trace
            ++ (if s.screen_line_ctr > screen_max_lines then clearEvents else [])
            ++ logLineEvents CMDID Msg } := by
  have h1 := tail_ctr CMDID Msg s
  have h2 := tail_trace CMDID Msg s
  cases hr : DisplayCommand_tail CMDID Msg s with
  | mk c tr =>
    rw [hr] at h1 h2
    simp only at h1 h2
    rw [h1, h2]

/-- For an ID whose branch has no effect, `DisplayCommand` is its tail run on
the unchanged state with the label of that ID. -/
theorem DisplayCommand_plain (CMDID : Nat) (s : State)
    (h45 : CMDID ≠ 45) (hdigit : ¬ (52 ≤ CMDID ∧ CMDID ≤ 61)) :
    DisplayCommand CMDID s
      = DisplayCommand_tail CMDID (DisplayCommand_switch CMDID s).1 s := by
  rcases switch_shape CMDID with ⟨_, h⟩ | ⟨h, _⟩ | ⟨h, _⟩
  · show DisplayCommand_tail CMDID _ (DisplayCommand_switch CMDID s).2 = _
    rw [h s]
  · exact absurd h h45
  · exact absurd h hdigit

/-- For ID 45 and the digit IDs, `DisplayCommand` ends with the counter at 1,
and what it adds to the record is: some calls, a clear, at most the restore of
the text size, and the log line. -/
theorem DisplayCommand_effect (CMDID : Nat) (s : State)
    (h : CMDID = 45 ∨ (52 ≤ CMDID ∧ CMDID ≤ 61)) :
    (DisplayCommand CMDID s).screen_line_ctr = 1
    ∧ ∃ pre mid, (mid = [] ∨ mid = [Event.setTextSize 2])
        ∧ (DisplayCommand CMDID s).trace
            = s.trace ++ pre ++ clearEvents ++ mid
                ++ logLineEvents CMDID (DisplayCommand_switch CMDID s).1 := by
  have hdef : DisplayCommand CMDID s
      = DisplayCommand_tail CMDID (DisplayCommand_switch CMDID s).1
          (DisplayCommand_switch CMDID s).2 := rfl
  rcases switch_shape CMDID with ⟨⟨h45, hd⟩, _⟩ | ⟨_, hsw⟩ | ⟨_, label, glyph, hsw⟩
  · rcases h with h | h
    · exact absurd h h45
    · exact absurd h hd
  · have ht := tail_after_clear CMDID (DisplayCommand_switch CMDID s).1
      (DisplayCommand_switch CMDID s).2 (by rw [hsw s]; rfl)
    refine ⟨by rw [hdef]; exact ht.1, [], [], Or.inl rfl, ?_⟩
    rw [hdef, ht.2, hsw s]
    simp
  · have ht := tail_after_clear CMDID (DisplayCommand_switch CMDID s).1
      (DisplayCommand_switch CMDID s).2 (by rw [hsw s]; rfl)
    refine ⟨by rw [hdef]; exact ht.1,
      clearEvents ++ [Event.setTextSize 15, Event.tftPrint glyph, Event.delay 2000],
      [Event.setTextSize 2], Or.inr rfl, ?_⟩
    rw [hdef, ht.2, hsw s, displayNumberBranch_trace]
    simp

/-- Plain-label IDs are neither 45 nor a digit ID. -/
theorem plain_not_effect {CMDID : Nat} (h : isPlainLabelID CMDID = true) :
    CMDID ≠ 45 ∧ ¬ (52 ≤ CMDID ∧ CMDID ≤ 61) := by
  simp only [isPlainLabelID, Bool.or_eq_true, Bool.and_eq_true, decide_eq_true_eq,
    beq_iff_eq] at h
  omega

/-- Unmapped IDs are neither 45 nor a digit ID. -/
theorem unmapped_not_effect {CMDID : Nat} (h : isMappedID CMDID = false) :
    CMDID ≠ 45 ∧ ¬ (52 ≤ CMDID ∧ CMDID ≤ 61) := by
  simp only [isMappedID, Bool.or_eq_false_iff, Bool.and_eq_false_iff, beq_eq_false_iff_ne,
    decide_eq_false_iff_not] at h
  omega

/-- Claim C6: with capacity `screen_max_lines = 13` and an ID that is neither
45 nor a digit ID, a call at `screen_line_ctr = 13` adds only the log line (no
clear) and ends at 14; a call at `screen_line_ctr = 14` adds a clear followed
by the log line and ends at 1. -/
theorem C6_implicit_clear_boundary (CMDID : Nat) (s : State)
    (h45 : CMDID ≠ 45) (hdigit : ¬ (52 ≤ CMDID ∧ CMDID ≤ 61)) :
    screen_max_lines = 13
    ∧ (s.screen_line_ctr = screen_max_lines →
        (DisplayCommand CMDID s).trace
          = s.trace ++ logLineEvents CMDID (DisplayCommand_switch CMDID s).1
        ∧ (DisplayCommand CMDID s).screen_line_ctr = screen_max_lines + 1)
    ∧ (s.screen_line_ctr = screen_max_lines + 1 →
        (DisplayCommand CMDID s).trace
          = s.trace ++ clearEvents ++ logLineEvents CMDID (DisplayCommand_switch CMDID s).1
        ∧ (DisplayCommand CMDID s).screen_line_ctr = 1) := by
  rw [DisplayCommand_plain CMDID s h45 hdigit, tail_eq]
  refine ⟨rfl, fun h => ?_, fun h => ?_⟩
  · simp [h]
  · simp [h, screen_max_lines]

/-- Witness for C6 at the unmapped ID 200, from counters 13 and 14. -/
theorem C6_implicit_clear_boundary_witness :
    (200 ≠ 45 ∧ ¬ (52 ≤ 200 ∧ 200 ≤ 61))
    ∧ ((DisplayCommand 200 { screen_line_ctr := 13, trace := [] }).trace
          = logLineEvents 200 " "
        ∧ (DisplayCommand 200 { screen_line_ctr := 13, trace := [] }).screen_line_ctr = 14)
    ∧ ((DisplayCommand 200 { screen_line_ctr := 14, trace := [] }).trace
          = clearEvents ++ logLineEvents 200 " "
        ∧ (DisplayCommand 200 { screen_line_ctr := 14, trace := [] }).screen_line_ctr = 1) :=
  ⟨by decide,
   (C6_implicit_clear_boundary 200 { screen_line_ctr := 13, trace := [] }
      (by decide) (by decide)).2.1 rfl,
   (C6_implicit_clear_boundary 200 { screen_line_ctr := 14, trace := [] }
      (by decide) (by decide)).2.2 rfl⟩

/-- After any call the counter is at most one past the capacity. -/
theorem DisplayCommand_ctr_le (CMDID : Nat) (s : State) :
    (DisplayCommand CMDID s).screen_line_ctr ≤ screen_max_lines + 1 := by
  by_cases h : CMDID = 45 ∨ (52 ≤ CMDID ∧ CMDID ≤ 61)
  · rw [(DisplayCommand_effect CMDID s h).1]
    decide
  · rw [DisplayCommand_plain CMDID s (fun e => h (Or.inl e)) (fun e => h (Or.inr e)), tail_ctr]
    split <;> simp only [screen_max_lines] at * <;> omega

/-- The retry loop of `setup` does not touch the counter. -/
theorem setup_beginLoop_ctr (failures : Nat) (s : State) :
    (setup_beginLoop failures s).screen_line_ctr = s.screen_line_ctr := by
  induction failures generalizing s with
  | zero => rfl
  | succ n ih =>
    show (setup_beginLoop n _).screen_line_ctr = _
    rw [ih]
    rfl

/-- The startup state: `setup` leaves the counter at 2. -/
theorem setup_ctr (failures : Nat) (s : State) :
    (setup failures s).screen_line_ctr = 2 := by
  show (setup_beginLoop failures _).screen_line_ctr = 2
  rw [setup_beginLoop_ctr]

/-- Repeating `DisplayCommand(22)` stays inside the reachable states. -/
theorem reachable_iterate (n : Nat) (s : State) (hs : Reachable s) :
    Reachable ((DisplayCommand 22)^[n] s) := by
  induction n with
  | zero => exact hs
  | succ k ih =>
    rw [Function.iterate_succ_apply']
    exact Reachable.step _ 22 ih (by decide) (by decide)

/-- The state `overflowState` is reachable. -/
theorem overflowState_reachable : Reachable overflowState :=
  reachable_iterate 12 _ (Reachable.start 0)

/-- Claim C7: in every state reachable from the startup state by
`DisplayCommand` calls with IDs in 1..255, `screen_line_ctr` is at most
`screen_max_lines + 1`; and when it equals `screen_max_lines + 1`, the next
call with any ID in 1..255 performs a clear before its log line (between the
clear and the log line there is at most the restore of the text size) and
returns with the counter at most `screen_max_lines`. -/
theorem C7_line_count_bounded (s : State) (hs : Reachable s) :
    s.screen_line_ctr ≤ screen_max_lines + 1
    ∧ (s.screen_line_ctr = screen_max_lines + 1 →
        ∀ CMDID, 1 ≤ CMDID → CMDID ≤ 255 →
          (∃ pre mid, (mid = [] ∨ mid = [Event.setTextSize 2])
            ∧ (DisplayCommand CMDID s).trace
                = s.trace ++ pre ++ clearEvents ++ mid
                    ++ logLineEvents CMDID (DisplayCommand_switch CMDID s).1)
          ∧ (DisplayCommand CMDID s).screen_line_ctr ≤ screen_max_lines) := by
  constructor
  · cases hs with
    | start failures =>
      rw [setup_ctr]
      decide
    | step t CMDID _ _ _ => exact DisplayCommand_ctr_le CMDID t
  · intro hfull CMDID _ _
    by_cases h : CMDID = 45 ∨ (52 ≤ CMDID ∧ CMDID ≤ 61)
    · obtain ⟨hc, hex⟩ := DisplayCommand_effect CMDID s h
      refine ⟨hex, ?_⟩
      rw [hc]
      decide
    · have hp := DisplayCommand_plain CMDID s (fun e => h (Or.inl e)) (fun e => h (Or.inr e))
      have hgt : s.screen_line_ctr > screen_max_lines := by
        rw [hfull]
        decide
      rw [hp, tail_eq]
      refine ⟨⟨[], [], Or.inl rfl, ?_⟩, ?_⟩
      · simp [hgt]
      · simp only [hgt, if_true]
        decide

/-- Witness for C7: `overflowState` is reachable with the counter at 14, and
the next `DisplayCommand(22)` brings it back to at most 13. -/
theorem C7_line_count_bounded_witness :
    Reachable overflowState
    ∧ overflowState.screen_line_ctr = screen_max_lines + 1
    ∧ (DisplayCommand 22 overflowState).screen_line_ctr ≤ screen_max_lines :=
  ⟨overflowState_reachable, by decide,
   ((C7_line_count_bounded overflowState overflowState_reachable).2 (by decide)
      22 (by decide) (by decide)).2⟩

/-- Claim C9, as stated, fails: the line `DisplayCommand(200)` prints from a
fresh state is not "200: ". -/
theorem C9_unmapped_line_not_bare :
    lineText (DisplayCommand 200 initState).trace ≠ "200: " := by
  decide

/-- Claim C9, amended: for an unmapped ID (such as 200) called at a counter of
at most `screen_max_lines`, `DisplayCommand` adds exactly the log line made of
the decimal ID, ": " and the one-space default label, so the text is the ID
followed by a colon and two spaces ("200:  "), and the counter goes up by 1. -/
theorem C9_unmapped_line (CMDID : Nat) (s : State)
    (h : isMappedID CMDID = false) (hle : s.screen_line_ctr ≤ screen_max_lines) :
    (DisplayCommand CMDID s).trace = s.trace ++ logLineEvents CMDID " "
    ∧ lineText (logLineEvents CMDID " ") = toString CMDID ++ ":  "
    ∧ (DisplayCommand CMDID s).screen_line_ctr = s.screen_line_ctr + 1 := by
  have hne := unmapped_not_effect h
  rw [DisplayCommand_plain CMDID s hne.1 hne.2, switch_unmapped CMDID s h, tail_eq,
    if_neg (not_lt.mpr hle), if_neg (not_lt.mpr hle)]
  refine ⟨by simp, ?_, rfl⟩
  show (("" ++ toString CMDID) ++ ": ") ++ " " = toString CMDID ++ ":  "
  rw [String.empty_append, String.append_assoc]
  rfl

/-- Witness for the amended C9 at ID 200 from a fresh state. -/
theorem C9_unmapped_line_witness :
    (isMappedID 200 = false ∧ initState.screen_line_ctr ≤ screen_max_lines)
    ∧ (DisplayCommand 200 initState).trace = initState.trace ++ logLineEvents 200 " "
    ∧ lineText (logLineEvents 200 " ") = toString 200 ++ ":  "
    ∧ (DisplayCommand 200 initState).screen_line_ctr = initState.screen_line_ctr + 1 :=
  ⟨⟨by decide, by decide⟩, C9_unmapped_line 200 initState (by decide) (by decide)⟩

/-! ## The poll loop -/

/-- What a `DisplayCommand` call adds to the record and the counter it leaves
depend only on the ID and the counter before the call, and the call never
writes to the status channel. -/
theorem DisplayCommand_frame (CMDID : Nat) (c : Int) :
    ∃ (c' : Int) (es : List Event), es.filter Event.isSerial = []
      ∧ ∀ tr, DisplayCommand CMDID { screen_line_ctr := c, trace := tr }
          = { screen_line_ctr := c', trace := tr ++ es } := by
  have hdef : ∀ s, DisplayCommand CMDID s
      = DisplayCommand_tail CMDID (DisplayCommand_switch CMDID s).1
          (DisplayCommand_switch CMDID s).2 := fun _ => rfl
  rcases switch_shape CMDID with ⟨_, hsw⟩ | ⟨_, hsw⟩ | ⟨_, label, glyph, hsw⟩
  · refine ⟨(if c > screen_max_lines then 0 else c) + 1,
      (if c > screen_max_lines then clearEvents else [])
        ++ logLineEvents CMDID (DisplayCommand_switch CMDID initState).1, ?_, fun tr => ?_⟩
    · split <;> rfl
    · rw [hdef, hsw, switch_label_indep CMDID _ initState, tail_eq]
      simp
  · refine ⟨1, clearEvents ++ logLineEvents CMDID "Clear Screen", rfl, fun tr => ?_⟩
    rw [hdef, hsw, tail_eq]
    simp [screen_max_lines]
  · refine ⟨1, clearEvents ++ [Event.setTextSize 15, Event.tftPrint glyph, Event.delay 2000]
        ++ clearEvents ++ [Event.setTextSize 2] ++ logLineEvents CMDID label, rfl, fun tr => ?_⟩
    rw [hdef, hsw, tail_eq]
    simp [screen_max_lines, displayNumberBranch_trace]

/-- Claim C10: one iteration of `loop` is decided by whether the queried ID is
zero.  For 0 the iteration only writes "waiting...." to the status channel and
waits: display trace and counter are unchanged.  For a nonzero ID it writes
"CMDID = " and the decimal ID to the status channel and runs `DisplayCommand`
once: display trace and counter are those of one `DisplayCommand` call. -/
theorem C10_poll_iteration (CMDID : Nat) (s : State) :
    (CMDID = 0 →
      (loop CMDID s).trace
          = s.trace ++ [Event.serialPrintln "waiting....", Event.delay 1000]
      ∧ serialTrace (loop CMDID s) = serialTrace s ++ [Event.serialPrintln "waiting...."]
      ∧ displayTrace (loop CMDID s) = displayTrace s
      ∧ (loop CMDID s).screen_line_ctr = s.screen_line_ctr)
    ∧ (CMDID ≠ 0 →
      loop CMDID s
          = (DisplayCommand CMDID
              ((s.emit (Event.serialPrint "CMDID = ")).emit (Event.serialPrintlnNum CMDID))).emit
              (Event.delay 1000)
      ∧ serialTrace (loop CMDID s)
          = serialTrace s ++ [Event.serialPrint "CMDID = ", Event.serialPrintlnNum CMDID]
      ∧ lineText [Event.serialPrint "CMDID = ", Event.serialPrintlnNum CMDID]
          = "CMDID = " ++ toString CMDID
      ∧ displayTrace (loop CMDID s) = displayTrace (DisplayCommand CMDID s)
      ∧ (loop CMDID s).screen_line_ctr = (DisplayCommand CMDID s).screen_line_ctr) := by
  constructor
  · intro h0
    subst h0
    have hl : loop 0 s = (s.emit (Event.serialPrintln "waiting....")).emit (Event.delay 1000) :=
      rfl
    rw [hl]
    refine ⟨by simp, ?_, ?_, rfl⟩
    · simp [serialTrace, Event.isSerial]
    · simp [displayTrace, Event.isDisplay]
  · intro hne
    have hl : loop CMDID s
        = (DisplayCommand CMDID
            ((s.emit (Event.serialPrint "CMDID = ")).emit (Event.serialPrintlnNum CMDID))).emit
            (Event.delay 1000) := by
      unfold loop
      rw [if_pos (Ne.symm hne)]
    obtain ⟨c', es, hes, hfr⟩ := DisplayCommand_frame CMDID s.screen_line_ctr
    have h1 : DisplayCommand CMDID s = State.mk c' (s.trace ++ es) := hfr s.trace
    have h2 : DisplayCommand CMDID
          ((s.emit (Event.serialPrint "CMDID = ")).emit (Event.serialPrintlnNum CMDID))
        = State.mk c'
            (s.trace ++ [Event.serialPrint "CMDID = "] ++ [Event.serialPrintlnNum CMDID] ++ es) :=
      hfr _
    refine ⟨hl, ?_, ?_, ?_, ?_⟩
    · rw [hl, h2]
      simp [serialTrace, Event.isSerial, hes]
    · show ("" ++ "CMDID = ") ++ toString CMDID = "CMDID = " ++ toString CMDID
      rw [String.empty_append]
    · rw [hl, h2, h1]
      simp [displayTrace, Event.isDisplay]
    · rw [hl, h2, h1]
      rfl

/-- Witness for C10: an iteration with ID 0 and one with ID 23, from the state
`setup` leaves. -/
theorem C10_poll_iteration_witness :
    (displayTrace (loop 0 (setup 0 initState)) = displayTrace (setup 0 initState)
      ∧ (loop 0 (setup 0 initState)).screen_line_ctr = (setup 0 initState).screen_line_ctr)
    ∧ (displayTrace (loop 23 (setup 0 initState))
          = displayTrace (DisplayCommand 23 (setup 0 initState))
      ∧ (loop 23 (setup 0 initState)).screen_line_ctr = 3) :=
  ⟨⟨((C10_poll_iteration 0 (setup 0 initState)).1 rfl).2.2.1,
     ((C10_poll_iteration 0 (setup 0 initState)).1 rfl).2.2.2⟩,
   ⟨((C10_poll_iteration 23 (setup 0 initState)).2 (by decide)).2.2.2.1,
     ((C10_poll_iteration 23 (setup 0 initState)).2 (by decide)).2.2.2.2⟩⟩

/-! ## Clear command, plain commands and digit commands in full -/

/-- A state whose record grew by other than two calls is not the result of
`clearScreen`. -/
theorem ne_clearScreen_of_length (s t : State) (es : List Event)
    (h : t.trace = s.trace ++ es) (hlen : es.length ≠ 2) : t ≠ clearScreen s := by
  intro heq
  have h2 : (clearScreen s).trace = s.trace ++ es := by rw [← heq, h]
  rw [clearScreen_trace] at h2
  have h3 := congrArg List.length h2
  simp only [List.length_append, clearEvents, List.length_cons, List.length_nil] at h3
  omega

/-- Claim C11: the switch branch of ID 45 leaves the label "Clear Screen" and
calls `clearScreen`, which fills the screen with black, puts the cursor at
(0, 0) and sets `screen_line_ctr` to 0; for no other ID is the state after the
switch the state `clearScreen` gives. -/
theorem C11_clear_screen_dispatch (CMDID : Nat) (s : State) (hne : CMDID ≠ 45) :
    DisplayCommand_switch 45 s = ("Clear Screen", clearScreen s)
    ∧ (clearScreen s).trace
        = s.trace ++ [Event.fillScreen ILI9341_BLACK, Event.setCursor 0 0]
    ∧ (clearScreen s).screen_line_ctr = 0
    ∧ (DisplayCommand_switch CMDID s).2 ≠ clearScreen s := by
  refine ⟨rfl, clearScreen_trace s, rfl, ?_⟩
  rcases switch_shape CMDID with ⟨_, hsw⟩ | ⟨h45, _⟩ | ⟨_, label, glyph, hsw⟩
  · rw [hsw s]
    exact ne_clearScreen_of_length s s [] (by simp) (by decide)
  · exact absurd h45 hne
  · rw [hsw s]
    exact ne_clearScreen_of_length s _ _ (displayNumberBranch_trace label glyph s)
      (by simp [clearEvents])

/-- Witness for C11 against the digit ID 52 and the plain ID 44. -/
theorem C11_clear_screen_dispatch_witness :
    (52 ≠ 45 ∧ 44 ≠ 45)
    ∧ (DisplayCommand_switch 52 initState).2 ≠ clearScreen initState
    ∧ (DisplayCommand_switch 44 initState).2 ≠ clearScreen initState :=
  ⟨by decide, (C11_clear_screen_dispatch 52 initState (by decide)).2.2.2,
   (C11_clear_screen_dispatch 44 initState (by decide)).2.2.2⟩

/-- Claim C12: for every plain-label ID and every prior counter,
`DisplayCommand` adds one log line (after a clear when the counter was past
`screen_max_lines`), whose text is the decimal ID, ": " and the label of that
ID, and the counter becomes (the prior counter if it was at most
`screen_max_lines`, else 0) + 1. -/
theorem C12_plain_command_line (CMDID : Nat) (s : State)
    (h : isPlainLabelID CMDID = true) :
    (DisplayCommand CMDID s).trace
      = s.trace ++ (if s.screen_line_ctr > screen_max_lines then clearEvents else [])
          ++ logLineEvents CMDID (DisplayCommand_switch CMDID s).1
    ∧ linesPrinted (DisplayCommand CMDID s) = linesPrinted s + 1
    ∧ lineText (logLineEvents CMDID (DisplayCommand_switch CMDID s).1)
        = toString CMDID ++ ": " ++ (DisplayCommand_switch CMDID s).1
    ∧ (DisplayCommand CMDID s).screen_line_ctr
        = (if s.screen_line_ctr ≤ screen_max_lines then s.screen_line_ctr else 0) + 1 := by
  have hp := DisplayCommand_plain CMDID s (plain_not_effect h).1 (plain_not_effect h).2
  have htr := tail_trace CMDID (DisplayCommand_switch CMDID s).1 s
  rw [← hp] at htr
  refine ⟨htr, ?_, ?_, ?_⟩
  · rw [List.append_assoc] at htr
    rw [linesPrinted_append s _ _ htr]
    split <;> rfl
  · show (("" ++ toString CMDID) ++ ": ") ++ (DisplayCommand_switch CMDID s).1 = _
    rw [String.empty_append]
  · rw [hp, tail_ctr]
    by_cases hgt : s.screen_line_ctr > screen_max_lines
    · rw [if_pos hgt, if_neg (not_le.mpr hgt)]
    · rw [if_neg hgt, if_pos (not_lt.mp hgt)]

/-- Witness for C12 at ID 93 ("Stop Playing") from a counter of 20. -/
theorem C12_plain_command_line_witness :
    isPlainLabelID 93 = true
    ∧ (DisplayCommand 93 { screen_line_ctr := 20, trace := [] }).trace
        = clearEvents ++ logLineEvents 93 "Stop Playing"
    ∧ lineText (logLineEvents 93 "Stop Playing") = "93: Stop Playing"
    ∧ (DisplayCommand 93 { screen_line_ctr := 20, trace := [] }).screen_line_ctr = 1 :=
  ⟨by decide,
   (C12_plain_command_line 93 { screen_line_ctr := 20, trace := [] } (by decide)).1,
   (C12_plain_command_line 93 { screen_line_ctr := 20, trace := [] } (by decide)).2.2.1,
   (C12_plain_command_line 93 { screen_line_ctr := 20, trace := [] } (by decide)).2.2.2⟩

/-- The switch branch of a digit ID adds the show-digit calls for digit
`CMDID - 52` and leaves the counter at 0. -/
theorem switch_digit (CMDID : Nat) (s : State) (hlo : 52 ≤ CMDID) (hhi : CMDID ≤ 61) :
    (DisplayCommand_switch CMDID s).2.trace = s.trace ++ showDigitEvents (CMDID - 52)
    ∧ (DisplayCommand_switch CMDID s).2.screen_line_ctr = 0 := by
  interval_cases CMDID <;>
    · show (displayNumberBranch _ _ s).2.trace = _ ∧ (displayNumberBranch _ _ s).2.screen_line_ctr = 0
      rw [displayNumberBranch_trace]
      exact ⟨rfl, rfl⟩

theorem textSizeAfter_append (es fs : List Event) :
    textSizeAfter (es ++ fs) = fs.foldl textSizeStep (textSizeAfter es) := by
  simp [textSizeAfter, List.foldl_append]

/-- The retry loop of `setup` makes no `setTextSize` call. -/
theorem setup_beginLoop_textSize (failures : Nat) (s : State) :
    textSizeAfter (setup_beginLoop failures s).trace = textSizeAfter s.trace := by
  induction failures generalizing s with
  | zero =>
    show textSizeAfter (s.trace ++ [Event.df2301qBegin true]) = _
    rw [textSizeAfter_append]
    rfl
  | succ n ih =>
    show textSizeAfter (setup_beginLoop n _).trace = _
    rw [ih]
    simp only [emit_trace, textSizeAfter_append]
    rfl

/-- The text size in force when `setup` returns is 2. -/
theorem setup_textSize (failures : Nat) :
    textSizeAfter (setup failures initState).trace = some 2 := by
  unfold setup
  simp only [emit_trace, textSizeAfter_append, setup_beginLoop_textSize]
  rfl

/-- Claim C13: for every ID in 52..61, what `DisplayCommand` adds to the record
is, in order: clear screen, text size 15, the single digit `CMDID - 52`, a hold
of 2000 ms, clear screen, text size 2, and then the log line; the text size in
force after the call is 2, the size `setup` sets at startup. -/
theorem C13_show_digit_sequence (CMDID : Nat) (s : State) (failures : Nat)
    (hlo : 52 ≤ CMDID) (hhi : CMDID ≤ 61) :
    (DisplayCommand CMDID s).trace
      = s.trace
        ++ [Event.fillScreen ILI9341_BLACK, Event.setCursor 0 0,
            Event.setTextSize 15,
            Event.tftPrint (toString (CMDID - 52)),
            Event.delay 2000,
            Event.fillScreen ILI9341_BLACK, Event.setCursor 0 0,
            Event.setTextSize 2]
        ++ logLineEvents CMDID (DisplayCommand_switch CMDID s).1
    ∧ textSizeAfter (DisplayCommand CMDID s).trace = some 2
    ∧ textSizeAfter (setup failures initState).trace = some 2 := by
  have hsw := switch_digit CMDID s hlo hhi
  have ht := tail_after_clear CMDID (DisplayCommand_switch CMDID s).1
    (DisplayCommand_switch CMDID s).2 hsw.2
  have htr : (DisplayCommand CMDID s).trace
      = s.trace ++ showDigitEvents (CMDID - 52)
          ++ logLineEvents CMDID (DisplayCommand_switch CMDID s).1 := by
    show (DisplayCommand_tail CMDID _ (DisplayCommand_switch CMDID s).2).trace = _
    rw [ht.2, hsw.1]
  refine ⟨htr, ?_, setup_textSize failures⟩
  rw [htr, textSizeAfter_append, textSizeAfter_append]
  rfl

/-- Witness for C13 at ID 59 (digit 7) from a fresh state. -/
theorem C13_show_digit_sequence_witness :
    (52 ≤ 59 ∧ 59 ≤ 61)
    ∧ (DisplayCommand 59 initState).trace
        = [Event.fillScreen ILI9341_BLACK, Event.setCursor 0 0,
            Event.setTextSize 15, Event.tftPrint "7", Event.delay 2000,
            Event.fillScreen ILI9341_BLACK, Event.setCursor 0 0,
            Event.setTextSize 2]
          ++ logLineEvents 59 "Display Number Seven"
    ∧ textSizeAfter (DisplayCommand 59 initState).trace = some 2 :=
  ⟨by decide, (C13_show_digit_sequence 59 initState 0 (by decide) (by decide)).1,
   (C13_show_digit_sequence 59 initState 0 (by decide) (by decide)).2.1⟩

/-- Claim C14: for every ID the label the switch copies into `Msg` has at most
22 characters, all of one byte, so with its terminator it fits the 23 bytes
of `Msg`. -/
theorem C14_label_fits_buffer (CMDID : Nat) (s : State) :
    (DisplayCommand_switch CMDID s).1.length ≤ 22
    ∧ (DisplayCommand_switch CMDID s).1.utf8ByteSize + 1 ≤ 23 := by
  rw [switch_label_indep CMDID s initState]
  by_cases hle : CMDID ≤ 98
  · interval_cases CMDID <;> decide
  · have hm : isMappedID CMDID = false := by
      simp only [isMappedID, Bool.or_eq_false_iff, Bool.and_eq_false_iff, beq_eq_false_iff_ne,
        decide_eq_false_iff_not]
      omega
    rw [switch_unmapped CMDID initState hm]
    decide

/-- Claim C15: for ID 45 and every ID in 52..61, from every prior state, the
switch branch leaves the counter at 0, the call goes on to the common tail,
which adds the log line without a further clear, and the counter after the
call is exactly 1. -/
theorem C15_effect_command_counter_one (CMDID : Nat) (s : State)
    (h : CMDID = 45 ∨ (52 ≤ CMDID ∧ CMDID ≤ 61)) :
    (DisplayCommand_switch CMDID s).2.screen_line_ctr = 0
    ∧ (DisplayCommand CMDID s).trace
        = (DisplayCommand_switch CMDID s).2.trace
            ++ logLineEvents CMDID (DisplayCommand_switch CMDID s).1
    ∧ (DisplayCommand CMDID s).screen_line_ctr = 1 := by
  have h0 : (DisplayCommand_switch CMDID s).2.screen_line_ctr = 0 := by
    rcases h with h | h
    · subst h
      rfl
    · exact (switch_digit CMDID s h.1 h.2).2
  have ht := tail_after_clear CMDID (DisplayCommand_switch CMDID s).1
    (DisplayCommand_switch CMDID s).2 h0
  exact ⟨h0, ht.2, ht.1⟩

/-- Witness for C15 at ID 45 and at ID 61, from a counter of 9. -/
theorem C15_effect_command_counter_one_witness :
    ((45 = 45 ∨ (52 ≤ 45 ∧ 45 ≤ 61)) ∧ (61 = 45 ∨ (52 ≤ 61 ∧ 61 ≤ 61)))
    ∧ (DisplayCommand 45 { screen_line_ctr := 9, trace := [] }).screen_line_ctr = 1
    ∧ (DisplayCommand 61 { screen_line_ctr := 9, trace := [] }).screen_line_ctr = 1 :=
  ⟨by decide,
   (C15_effect_command_counter_one 45 { screen_line_ctr := 9, trace := [] } (by decide)).2.2,
   (C15_effect_command_counter_one 61 { screen_line_ctr := 9, trace := [] } (by decide)).2.2⟩

/-! ## Every call prints one log line -/

/-- What any call adds to the record ends with its log line, and nothing
before the log line is a `println`. -/
theorem DisplayCommand_emits (CMDID : Nat) (s : State) :
    ∃ pre, pre.countP Event.isPrintln = 0
      ∧ (DisplayCommand CMDID s).trace
          = s.trace ++ pre ++ logLineEvents CMDID (DisplayCommand_switch CMDID s).1 := by
  have hdef : DisplayCommand CMDID s
      = DisplayCommand_tail CMDID (DisplayCommand_switch CMDID s).1
          (DisplayCommand_switch CMDID s).2 := rfl
  rcases switch_shape CMDID with ⟨_, hsw⟩ | ⟨_, hsw⟩ | ⟨_, label, glyph, hsw⟩
  · refine ⟨if s.screen_line_ctr > screen_max_lines then clearEvents else [], ?_, ?_⟩
    · split <;> rfl
    · rw [hdef, tail_trace, hsw s]
  · have ht := tail_after_clear CMDID (DisplayCommand_switch CMDID s).1
      (DisplayCommand_switch CMDID s).2 (by rw [hsw s]; rfl)
    refine ⟨clearEvents, rfl, ?_⟩
    rw [hdef, ht.2, hsw s]
    simp
  · have ht := tail_after_clear CMDID (DisplayCommand_switch CMDID s).1
      (DisplayCommand_switch CMDID s).2 (by rw [hsw s]; rfl)
    refine ⟨clearEvents ++ [Event.setTextSize 15, Event.tftPrint glyph, Event.delay 2000]
      ++ clearEvents ++ [Event.setTextSize 2], rfl, ?_⟩
    rw [hdef, ht.2, hsw s, displayNumberBranch_trace]

/-- Every call prints exactly one log line. -/
theorem DisplayCommand_linesPrinted (CMDID : Nat) (s : State) :
    linesPrinted (DisplayCommand CMDID s) = linesPrinted s + 1 := by
  obtain ⟨pre, hpre, htr⟩ := DisplayCommand_emits CMDID s
  rw [List.append_assoc] at htr
  rw [linesPrinted_append s _ _ htr, List.countP_append, hpre]
  rfl

/-- After a call from a counter that is not negative the counter is at least 1. -/
theorem DisplayCommand_ctr_pos (CMDID : Nat) (s : State) (h0 : 0 ≤ s.screen_line_ctr) :
    1 ≤ (DisplayCommand CMDID s).screen_line_ctr := by
  by_cases h : CMDID = 45 ∨ (52 ≤ CMDID ∧ CMDID ≤ 61)
  · rw [(DisplayCommand_effect CMDID s h).1]
  · rw [DisplayCommand_plain CMDID s (fun e => h (Or.inl e)) (fun e => h (Or.inr e)), tail_ctr]
    split <;> omega

/-- Claim C16: for every ID and every prior counter that is not negative, what
a `DisplayCommand` call adds to the record ends with the log line of that ID
(decimal ID, ": ", content of `Msg`), nothing before it in the call is a
`println`, so exactly one log line is printed, and afterwards
1 <= `screen_line_ctr` <= `screen_max_lines + 1`. -/
theorem C16_one_log_line_per_call (CMDID : Nat) (s : State) (h0 : 0 ≤ s.screen_line_ctr) :
    (∃ pre, pre.countP Event.isPrintln = 0
      ∧ (DisplayCommand CMDID s).trace
          = s.trace ++ pre ++ logLineEvents CMDID (DisplayCommand_switch CMDID s).1)
    ∧ linesPrinted (DisplayCommand CMDID s) = linesPrinted s + 1
    ∧ 1 ≤ (DisplayCommand CMDID s).screen_line_ctr
    ∧ (DisplayCommand CMDID s).screen_line_ctr ≤ screen_max_lines + 1 :=
  ⟨DisplayCommand_emits CMDID s, DisplayCommand_linesPrinted CMDID s,
   DisplayCommand_ctr_pos CMDID s h0, DisplayCommand_ctr_le CMDID s⟩

/-- Witness for C16 at the clear command 45 from a counter of 14. -/
theorem C16_one_log_line_per_call_witness :
    (0 : Int) ≤ ({ screen_line_ctr := 14, trace := [] } : State).screen_line_ctr
    ∧ linesPrinted (DisplayCommand 45 { screen_line_ctr := 14, trace := [] })
        = linesPrinted { screen_line_ctr := 14, trace := [] } + 1
    ∧ 1 ≤ (DisplayCommand 45 { screen_line_ctr := 14, trace := [] }).screen_line_ctr
    ∧ (DisplayCommand 45 { screen_line_ctr := 14, trace := [] }).screen_line_ctr
        ≤ screen_max_lines + 1 :=
  ⟨by decide,
   (C16_one_log_line_per_call 45 { screen_line_ctr := 14, trace := [] } (by decide)).2⟩

/-! ## Runs of plain commands -/

theorem runCommands_cons (id : Nat) (ids : List Nat) (s : State) :
    runCommands (id :: ids) s = runCommands ids (DisplayCommand id s) := rfl

theorem runCommands_snoc (pre : List Nat) (id : Nat) (s : State) :
    runCommands (pre ++ [id]) s = DisplayCommand id (runCommands pre s) := by
  simp [runCommands, List.foldl_append]

/-- A run of calls prints one log line per call. -/
theorem runCommands_linesPrinted (ids : List Nat) (s : State) :
    linesPrinted (runCommands ids s) = linesPrinted s + ids.length := by
  induction ids generalizing s with
  | nil => rfl
  | cons id ids ih =>
    rw [runCommands_cons, ih, DisplayCommand_linesPrinted, List.length_cons]
    omega

/-- Counter after a call whose switch branch has no effect. -/
theorem plain_ctr (CMDID : Nat) (s : State)
    (h : CMDID ≠ 45 ∧ ¬ (52 ≤ CMDID ∧ CMDID ≤ 61)) :
    (DisplayCommand CMDID s).screen_line_ctr
      = (if s.screen_line_ctr > 13 then 0 else s.screen_line_ctr) + 1 := by
  rw [DisplayCommand_plain CMDID s h.1 h.2, tail_ctr]
  rfl

/-- Counter after a run of calls without effect, from a counter in 0..14. -/
theorem runCommands_ctr (ids : List Nat) (s : State)
    (hall : ∀ x ∈ ids, x ≠ 45 ∧ ¬ (52 ≤ x ∧ x ≤ 61))
    (hlo : 0 ≤ s.screen_line_ctr) (hhi : s.screen_line_ctr ≤ 14) :
    (runCommands ids s).screen_line_ctr
      = if ids.length = 0 then s.screen_line_ctr
        else (s.screen_line_ctr + ids.length - 1) % 14 + 1 := by
  induction ids generalizing s with
  | nil => rfl
  | cons id ids ih =>
    have hstep := plain_ctr id s (hall id (List.mem_cons_self id ids))
    have hih := ih (DisplayCommand id s) (fun x hx => hall x (List.mem_cons_of_mem id hx))
      (by rw [hstep]; split <;> omega) (by rw [hstep]; split <;> omega)
    rw [runCommands_cons, hih, hstep]
    simp only [List.length_cons]
    split <;> split <;> split <;> omega

/-- For a call without effect, the record grows by a clear and the log line
exactly when the counter was past `screen_max_lines`. -/
theorem implicit_clear_iff (CMDID : Nat) (t : State)
    (h : CMDID ≠ 45 ∧ ¬ (52 ≤ CMDID ∧ CMDID ≤ 61)) :
    (DisplayCommand CMDID t).trace
        = t.trace ++ clearEvents ++ logLineEvents CMDID (DisplayCommand_switch CMDID t).1
      ↔ t.screen_line_ctr > 13 := by
  rw [DisplayCommand_plain CMDID t h.1 h.2, tail_trace]
  have hm : screen_max_lines = 13 := rfl
  rw [hm]
  constructor
  · intro heq
    by_contra hgt
    rw [if_neg hgt] at heq
    have hlen := congrArg List.length heq
    simp only [List.length_append, clearEvents, List.length_cons, List.length_nil] at hlen
    omega
  · intro hgt
    rw [if_pos hgt]

/-- Claim C17: take a run of k >= 1 calls whose IDs are neither 45 nor in
52..61 (the list `pre` followed by `CMDID`, so k = `pre.length + 1`), and
`screen_max_lines + 1 = 14`.  The run prints k log lines.  Started at counter
0, the counter after the k-th call is ((k - 1) mod 14) + 1, and the k-th call
makes the implicit clear exactly when k > 1 and k mod 14 = 1, so 14 lines are
drawn between two implicit clears.  Started at counter 2 (the startup value),
the k-th call makes the implicit clear exactly when k mod 14 = 13, so the first
one is on the 13th call. -/
theorem C17_plain_command_cycle (pre : List Nat) (CMDID : Nat) (s : State)
    (hall : ∀ x ∈ pre ++ [CMDID], x ≠ 45 ∧ ¬ (52 ≤ x ∧ x ≤ 61)) :
    screen_max_lines + 1 = 14
    ∧ linesPrinted (runCommands (pre ++ [CMDID]) s) = linesPrinted s + (pre.length + 1)
    ∧ (s.screen_line_ctr = 0 →
        (runCommands (pre ++ [CMDID]) s).screen_line_ctr
            = (((pre.length + 1 - 1 : Nat) : Int) % (screen_max_lines + 1)) + 1
        ∧ ((DisplayCommand CMDID (runCommands pre s)).trace
              = (runCommands pre s).trace ++ clearEvents
                  ++ logLineEvents CMDID (DisplayCommand_switch CMDID (runCommands pre s)).1
            ↔ (pre.length + 1 > 1 ∧ (pre.length + 1) % 14 = 1)))
    ∧ (s.screen_line_ctr = 2 →
        ((DisplayCommand CMDID (runCommands pre s)).trace
              = (runCommands pre s).trace ++ clearEvents
                  ++ logLineEvents CMDID (DisplayCommand_switch CMDID (runCommands pre s)).1
            ↔ (pre.length + 1) % 14 = 13)
        ∧ (pre.length + 1 ≤ 13 →
            ((DisplayCommand CMDID (runCommands pre s)).trace
              = (runCommands pre s).trace ++ clearEvents
                  ++ logLineEvents CMDID (DisplayCommand_switch CMDID (runCommands pre s)).1
            ↔ pre.length + 1 = 13))) := by
  have hpre : ∀ x ∈ pre, x ≠ 45 ∧ ¬ (52 ≤ x ∧ x ≤ 61) :=
    fun x hx => hall x (List.mem_append_left _ hx)
  have hid : CMDID ≠ 45 ∧ ¬ (52 ≤ CMDID ∧ CMDID ≤ 61) :=
    hall CMDID (List.mem_append_right _ (List.mem_singleton_self CMDID))
  have hm : screen_max_lines = 13 := rfl
  have hlines := runCommands_linesPrinted (pre ++ [CMDID]) s
  rw [List.length_append, List.length_singleton] at hlines
  refine ⟨rfl, hlines, fun h0 => ?_, fun h2 => ?_⟩
  · have hall' := runCommands_ctr (pre ++ [CMDID]) s hall (by omega) (by omega)
    have hbefore := runCommands_ctr pre s hpre (by omega) (by omega)
    rw [List.length_append, List.length_singleton] at hall'
    refine ⟨?_, ?_⟩
    · rw [hall', hm, h0]
      split <;> omega
    · rw [implicit_clear_iff CMDID _ hid, hbefore, h0]
      split <;> omega
  · have hbefore := runCommands_ctr pre s hpre (by omega) (by omega)
    have hiff : (DisplayCommand CMDID (runCommands pre s)).trace
          = (runCommands pre s).trace ++ clearEvents
              ++ logLineEvents CMDID (DisplayCommand_switch CMDID (runCommands pre s)).1
        ↔ (pre.length + 1) % 14 = 13 := by
      rw [implicit_clear_iff CMDID _ hid, hbefore, h2]
      split <;> omega
    refine ⟨hiff, fun hk => ?_⟩
    rw [hiff]
    omega

/-- Witness for C17 with fifteen calls of ID 22 from counter 0 (the fifteenth
makes the implicit clear and leaves the counter at 1) and thirteen calls of
ID 22 from the startup state (the thirteenth makes the implicit clear). -/
theorem C17_plain_command_cycle_witness :
    (∀ x ∈ List.replicate 14 22 ++ [22], x ≠ 45 ∧ ¬ (52 ≤ x ∧ x ≤ 61))
    ∧ (runCommands (List.replicate 14 22 ++ [22]) initState).screen_line_ctr = 1
    ∧ (DisplayCommand 22 (runCommands (List.replicate 14 22) initState)).trace
        = (runCommands (List.replicate 14 22) initState).trace ++ clearEvents
            ++ logLineEvents 22 "Go Forward"
    ∧ (DisplayCommand 22 (runCommands (List.replicate 12 22) (setup 0 initState))).trace
        = (runCommands (List.replicate 12 22) (setup 0 initState)).trace ++ clearEvents
            ++ logLineEvents 22 "Go Forward" :=
  ⟨by decide,
   ((C17_plain_command_cycle (List.replicate 14 22) 22 initState (by decide)).2.2.1 rfl).1,
   ((C17_plain_command_cycle (List.replicate 14 22) 22 initState (by decide)).2.2.1 rfl).2.2
      (by decide),
   ((C17_plain_command_cycle (List.replicate 12 22) 22 (setup 0 initState)
      (by decide)).2.2.2 rfl).1.2 (by decide)⟩

end VoiceRecogBasic
